import Mathlib

/-!
Verification of the speed test core (speedtest_core.py, test_results_storage.py,
scheduled_testing.py) against its natural-language specification.

The Python code is shallowly embedded: pure computations become Lean functions
over the rationals (Python floats are modelled as exact rationals), JSON values
become an inductive type, and the stateful pieces (the retry loop, the
scheduler loop iteration) become explicit functions of the inputs the Python
code reads (cancellation-flag reads, provider outcomes, clock readings).
-/

namespace SpeedTest

/-! ### JSON values as seen by the configuration loader

A JSON scalar loaded by json.load: a number, a boolean, or anything else
(string, null, array, object).  In Python a bool is a subclass of int, so the
numeric isinstance check of _validate_config_value accepts True and False as
the numbers 1 and 0; the boolean isinstance check accepts only bools. -/

inductive JValue where
  | num (q : ℚ)
  | bool (b : Bool)
  | other
deriving DecidableEq, Repr

/-! ### Configuration (speedtest_core.py, class SpeedTestConfig) -/

/-- The configuration record: the eleven keys of DEFAULT_CONFIG. -/
structure Config where
  bits_to_mbps : ℚ
  connectivity_check_timeout : ℚ
  speedtest_timeout : ℚ
  max_retries : ℚ
  retry_delay : ℚ
  max_typical_speed_gbps : ℚ
  max_reasonable_speed_gbps : ℚ
  max_typical_ping_ms : ℚ
  max_reasonable_ping_ms : ℚ
  show_detailed_progress : Bool
  save_results_to_database : Bool
deriving DecidableEq, Repr

/-- Compiled-in defaults (SpeedTestConfig.DEFAULT_CONFIG). -/
def DEFAULT_CONFIG : Config :=
  { bits_to_mbps := 1000000
    connectivity_check_timeout := 10
    speedtest_timeout := 60
    max_retries := 3
    retry_delay := 2
    max_typical_speed_gbps := 1
    max_reasonable_speed_gbps := 10
    max_typical_ping_ms := 1000
    max_reasonable_ping_ms := 10000
    show_detailed_progress := true
    save_results_to_database := true }

/-- The known configuration keys. -/
inductive CKey where
  | bits_to_mbps
  | connectivity_check_timeout
  | speedtest_timeout
  | max_retries
  | retry_delay
  | max_typical_speed_gbps
  | max_reasonable_speed_gbps
  | max_typical_ping_ms
  | max_reasonable_ping_ms
  | show_detailed_progress
  | save_results_to_database
deriving DecidableEq, Repr

/-- Validation ranges (SpeedTestConfig.VALIDATION_RULES); the two boolean keys
have no numeric range. -/
def VALIDATION_RULES : CKey → Option (ℚ × ℚ)
  | .bits_to_mbps => some (100000, 10000000)
  | .connectivity_check_timeout => some (5, 60)
  | .speedtest_timeout => some (10, 300)
  | .max_retries => some (1, 10)
  | .retry_delay => some (1, 30)
  | .max_typical_speed_gbps => some (1/10, 100)
  | .max_reasonable_speed_gbps => some (1, 1000)
  | .max_typical_ping_ms => some (50, 5000)
  | .max_reasonable_ping_ms => some (100, 30000)
  | .show_detailed_progress => none
  | .save_results_to_database => none

/-- Range of a numeric key (the two boolean keys are never looked up here). -/
def numRange (k : CKey) : ℚ × ℚ := (VALIDATION_RULES k).getD (0, 0)

/-- Numeric view of a JSON value, as Python isinstance(value, (int, float))
sees it: bools count as 1 and 0. -/
def pyNumVal : JValue → Option ℚ
  | .num q => some q
  | .bool b => some (if b then 1 else 0)
  | .other => none

/-- Numeric branch of _validate_config_value: a number (or bool-as-number)
within the inclusive range passes; anything else raises ValueError, modelled
as none. -/
def validateNum (lo hi : ℚ) (v : JValue) : Option ℚ :=
  match pyNumVal v with
  | some q => if lo ≤ q ∧ q ≤ hi then some q else none
  | none => none

/-- Boolean branch of _validate_config_value: only an actual bool passes. -/
def validateBool : JValue → Option Bool
  | .bool b => some b
  | _ => none

/-- Result of _validate_config_value on a known key, as a JSON value. -/
def validateKey (k : CKey) (v : JValue) : Option JValue :=
  match k with
  | .show_detailed_progress => (validateBool v).map JValue.bool
  | .save_results_to_database => (validateBool v).map JValue.bool
  | _ => (validateNum (numRange k).1 (numRange k).2 v).map JValue.num

/-- Contents of the configuration file restricted to the known keys; none
means the key is absent.  Unknown keys only produce a warning in
_validate_and_update_config and never reach the validated dictionary, so they
are not modelled. -/
structure FileConfig where
  bits_to_mbps : Option JValue := none
  connectivity_check_timeout : Option JValue := none
  speedtest_timeout : Option JValue := none
  max_retries : Option JValue := none
  retry_delay : Option JValue := none
  max_typical_speed_gbps : Option JValue := none
  max_reasonable_speed_gbps : Option JValue := none
  max_typical_ping_ms : Option JValue := none
  max_reasonable_ping_ms : Option JValue := none
  show_detailed_progress : Option JValue := none
  save_results_to_database : Option JValue := none
deriving DecidableEq, Repr

/-- Key-indexed access to the file contents. -/
def FileConfig.getKey (f : FileConfig) : CKey → Option JValue
  | .bits_to_mbps => f.bits_to_mbps
  | .connectivity_check_timeout => f.connectivity_check_timeout
  | .speedtest_timeout => f.speedtest_timeout
  | .max_retries => f.max_retries
  | .retry_delay => f.retry_delay
  | .max_typical_speed_gbps => f.max_typical_speed_gbps
  | .max_reasonable_speed_gbps => f.max_reasonable_speed_gbps
  | .max_typical_ping_ms => f.max_typical_ping_ms
  | .max_reasonable_ping_ms => f.max_reasonable_ping_ms
  | .show_detailed_progress => f.show_detailed_progress
  | .save_results_to_database => f.save_results_to_database

/-- Key-indexed access to a loaded configuration, boxed as a JSON value. -/
def Config.getKey (c : Config) : CKey → JValue
  | .bits_to_mbps => .num c.bits_to_mbps
  | .connectivity_check_timeout => .num c.connectivity_check_timeout
  | .speedtest_timeout => .num c.speedtest_timeout
  | .max_retries => .num c.max_retries
  | .retry_delay => .num c.retry_delay
  | .max_typical_speed_gbps => .num c.max_typical_speed_gbps
  | .max_reasonable_speed_gbps => .num c.max_reasonable_speed_gbps
  | .max_typical_ping_ms => .num c.max_typical_ping_ms
  | .max_reasonable_ping_ms => .num c.max_reasonable_ping_ms
  | .show_detailed_progress => .bool c.show_detailed_progress
  | .save_results_to_database => .bool c.save_results_to_database

/-- The validated dictionary built by _validate_and_update_config: a key is
present exactly when it is present in the file; an invalid value has been
replaced by the default for that key. -/
structure ValidatedConfig where
  bits_to_mbps : Option ℚ
  connectivity_check_timeout : Option ℚ
  speedtest_timeout : Option ℚ
  max_retries : Option ℚ
  retry_delay : Option ℚ
  max_typical_speed_gbps : Option ℚ
  max_reasonable_speed_gbps : Option ℚ
  max_typical_ping_ms : Option ℚ
  max_reasonable_ping_ms : Option ℚ
  show_detailed_progress : Option Bool
  save_results_to_database : Option Bool
deriving DecidableEq, Repr

/-- Per-key validation with default substitution, numeric keys (the body of
the for loop of _validate_and_update_config). -/
def fieldNum (k : CKey) (dflt : ℚ) : Option JValue → Option ℚ
  | none => none
  | some v => some ((validateNum (numRange k).1 (numRange k).2 v).getD dflt)

/-- Per-key validation with default substitution, boolean keys. -/
def fieldBool (dflt : Bool) : Option JValue → Option Bool
  | none => none
  | some v => some ((validateBool v).getD dflt)

/-- First pass of _validate_and_update_config: per-field validation with
default substitution on error. -/
def validateFields (f : FileConfig) : ValidatedConfig :=
  { bits_to_mbps := fieldNum .bits_to_mbps DEFAULT_CONFIG.bits_to_mbps f.bits_to_mbps
    connectivity_check_timeout :=
      fieldNum .connectivity_check_timeout DEFAULT_CONFIG.connectivity_check_timeout
        f.connectivity_check_timeout
    speedtest_timeout := fieldNum .speedtest_timeout DEFAULT_CONFIG.speedtest_timeout
      f.speedtest_timeout
    max_retries := fieldNum .max_retries DEFAULT_CONFIG.max_retries f.max_retries
    retry_delay := fieldNum .retry_delay DEFAULT_CONFIG.retry_delay f.retry_delay
    max_typical_speed_gbps :=
      fieldNum .max_typical_speed_gbps DEFAULT_CONFIG.max_typical_speed_gbps
        f.max_typical_speed_gbps
    max_reasonable_speed_gbps :=
      fieldNum .max_reasonable_speed_gbps DEFAULT_CONFIG.max_reasonable_speed_gbps
        f.max_reasonable_speed_gbps
    max_typical_ping_ms :=
      fieldNum .max_typical_ping_ms DEFAULT_CONFIG.max_typical_ping_ms f.max_typical_ping_ms
    max_reasonable_ping_ms :=
      fieldNum .max_reasonable_ping_ms DEFAULT_CONFIG.max_reasonable_ping_ms
        f.max_reasonable_ping_ms
    show_detailed_progress :=
      fieldBool DEFAULT_CONFIG.show_detailed_progress f.show_detailed_progress
    save_results_to_database :=
      fieldBool DEFAULT_CONFIG.save_results_to_database f.save_results_to_database }

/-- Second pass: the zero-or-negative re-check on the four ceiling keys (a
present, non-positive value reverts to its default). -/
def posAdjust (v : ValidatedConfig) : ValidatedConfig :=
  { v with
    max_typical_speed_gbps :=
      v.max_typical_speed_gbps.map
        (fun q => if q ≤ 0 then DEFAULT_CONFIG.max_typical_speed_gbps else q)
    max_reasonable_speed_gbps :=
      v.max_reasonable_speed_gbps.map
        (fun q => if q ≤ 0 then DEFAULT_CONFIG.max_reasonable_speed_gbps else q)
    max_typical_ping_ms :=
      v.max_typical_ping_ms.map
        (fun q => if q ≤ 0 then DEFAULT_CONFIG.max_typical_ping_ms else q)
    max_reasonable_ping_ms :=
      v.max_reasonable_ping_ms.map
        (fun q => if q ≤ 0 then DEFAULT_CONFIG.max_reasonable_ping_ms else q) }

/-- Third pass: the logical-consistency checks.  Each check fires only when
BOTH keys of the pair are present in the validated dictionary, and it reverts
only the typical key to its default. -/
def applyConsistency (v : ValidatedConfig) : ValidatedConfig :=
  { v with
    max_typical_speed_gbps :=
      match v.max_typical_speed_gbps, v.max_reasonable_speed_gbps with
      | some t, some r =>
          if t ≥ r then some DEFAULT_CONFIG.max_typical_speed_gbps else some t
      | t?, _ => t?
    max_typical_ping_ms :=
      match v.max_typical_ping_ms, v.max_reasonable_ping_ms with
      | some t, some r =>
          if t ≥ r then some DEFAULT_CONFIG.max_typical_ping_ms else some t
      | t?, _ => t? }

/-- The full _validate_and_update_config pipeline. -/
def validate_and_update_config (f : FileConfig) : ValidatedConfig :=
  applyConsistency (posAdjust (validateFields f))

/-- The load_config merge: defaults overridden by every key present in the
validated dictionary (self.config.update(validated_config)). -/
def load_config (f : FileConfig) : Config :=
  let v := validate_and_update_config f
  { bits_to_mbps := v.bits_to_mbps.getD DEFAULT_CONFIG.bits_to_mbps
    connectivity_check_timeout :=
      v.connectivity_check_timeout.getD DEFAULT_CONFIG.connectivity_check_timeout
    speedtest_timeout := v.speedtest_timeout.getD DEFAULT_CONFIG.speedtest_timeout
    max_retries := v.max_retries.getD DEFAULT_CONFIG.max_retries
    retry_delay := v.retry_delay.getD DEFAULT_CONFIG.retry_delay
    max_typical_speed_gbps :=
      v.max_typical_speed_gbps.getD DEFAULT_CONFIG.max_typical_speed_gbps
    max_reasonable_speed_gbps :=
      v.max_reasonable_speed_gbps.getD DEFAULT_CONFIG.max_reasonable_speed_gbps
    max_typical_ping_ms := v.max_typical_ping_ms.getD DEFAULT_CONFIG.max_typical_ping_ms
    max_reasonable_ping_ms :=
      v.max_reasonable_ping_ms.getD DEFAULT_CONFIG.max_reasonable_ping_ms
    show_detailed_progress :=
      v.show_detailed_progress.getD DEFAULT_CONFIG.show_detailed_progress
    save_results_to_database :=
      v.save_results_to_database.getD DEFAULT_CONFIG.save_results_to_database }

/-- The speed consistency check fires: both speed ceilings are present after
the first two passes and the typical value is not below the reasonable one. -/
def speedCascade (f : FileConfig) : Bool :=
  match (posAdjust (validateFields f)).max_typical_speed_gbps,
        (posAdjust (validateFields f)).max_reasonable_speed_gbps with
  | some t, some r => t ≥ r
  | _, _ => false

/-- The ping consistency check fires. -/
def pingCascade (f : FileConfig) : Bool :=
  match (posAdjust (validateFields f)).max_typical_ping_ms,
        (posAdjust (validateFields f)).max_reasonable_ping_ms with
  | some t, some r => t ≥ r
  | _, _ => false

/-! ### Test results and validation (speedtest_core.py, SpeedTestResult and
SpeedTestEngine.validate_results)

The timestamp field of SpeedTestResult (a wall-clock reading taken at
construction) is not modelled; no claim refers to it. -/

/-- Container for one test result (class SpeedTestResult).  The constructor
defaults are download 0, upload 0, ping 0, empty server string, not valid,
empty warning list, not cancelled. -/
structure SpeedTestResult where
  download_mbps : ℚ := 0
  upload_mbps : ℚ := 0
  ping_ms : ℚ := 0
  server_info : String := ""
  is_valid : Bool := false
  warnings : List String := []
  is_cancelled : Bool := false
deriving DecidableEq, Repr

/-- Decimal rendering with one fractional digit, modelling the Python format
specifier with precision 1 used for the unusually-high-speed message.  The
rendered values in every claim are exact one-digit decimals, where this
agrees with Python. -/
def fmtFixed1 (q : ℚ) : String :=
  let n : ℤ := ⌊q * 10 + 1/2⌋
  toString (n / 10) ++ "." ++ toString (n % 10)

/-- Decimal rendering with no fractional digits, modelling the Python format
specifier with precision 0 used for the high-latency message. -/
def fmtFixed0 (q : ℚ) : String :=
  toString (⌊q + 1/2⌋ : ℤ)

/-- Soft warning for an unusually high speed, given the larger of the two
speeds in Gbps. -/
def unusualSpeedMsg (speedGbps : ℚ) : String :=
  "Unusually high speed (" ++ fmtFixed1 speedGbps ++ " Gbps) - please verify results"

/-- Soft warning for a high ping. -/
def highLatencyMsg (ping : ℚ) : String :=
  "High latency (" ++ fmtFixed0 ping ++ " ms) detected - connection may be slow"

/-- SpeedTestEngine.validate_results on a raw results dictionary holding
numeric download and upload (bits per second) and ping (milliseconds).
Returns the pair of the validity flag and the warning list. -/
def validate_results (cfg : Config) (download upload ping : ℚ) : Bool × List String :=
  if download < 0 ∨ upload < 0 ∨ ping < 0 then
    (false, ["Invalid negative values detected - measurement failed"])
  else
    let max_reasonable_bps := cfg.max_reasonable_speed_gbps * 1000000000
    if download > max_reasonable_bps ∨ upload > max_reasonable_bps then
      (false, ["Extremely high speeds detected - likely measurement error"])
    else if ping > cfg.max_reasonable_ping_ms then
      (false, ["Extremely high ping detected - likely measurement error"])
    else
      let max_typical_bps := cfg.max_typical_speed_gbps * 1000000000
      let w1 :=
        if download > max_typical_bps ∨ upload > max_typical_bps then
          [unusualSpeedMsg (max download upload / 1000000000)]
        else []
      let w2 := if ping > cfg.max_typical_ping_ms then [highLatencyMsg ping] else []
      let w3 :=
        if download < 1000000 ∧ upload < 1000000 then
          ["Very low speeds detected - check network connection"]
        else []
      (true, w1 ++ w2 ++ w3)

/-! ### One engine run (SpeedTestEngine.run_speed_test)

The run is a straight-line sequence of six cancellation checkpoints
interleaved with five fallible provider calls (client construction,
get_servers, get_best_server, download, upload).  It is embedded as a
function of the six cancellation-flag reads and of the provider outcome:
either an exception raised by the call following a given checkpoint (its
handler message recorded as a string), or a successful run yielding the
server descriptor and the raw download, upload and ping numbers. -/

/-- Outcome of the provider interaction during one run. -/
inductive ProviderOutcome where
  | errAt (stage : ℕ) (msg : String)
  | ok (server : String) (download upload ping : ℚ)
deriving DecidableEq, Repr

/-- Exception message of the provider call following checkpoint k, if that
call is the one that raised. -/
def stageErr (out : ProviderOutcome) (k : ℕ) : Option String :=
  match out with
  | .errAt j m => if j = k then some m else none
  | .ok _ _ _ _ => none

/-- The result returned from every cancellation checkpoint:
SpeedTestResult(is_cancelled=True, warnings=["Test cancelled by user"]). -/
def cancelledResult : SpeedTestResult :=
  { is_cancelled := true, warnings := ["Test cancelled by user"] }

/-- The result returned from every exception handler of run_speed_test:
SpeedTestResult(warnings=[msg]) with all other fields at their defaults. -/
def mkFail (msg : String) : SpeedTestResult := { warnings := [msg] }

/-- SpeedTestEngine.run_speed_test.  cancelAt k is the value read from the
cancellation event at checkpoint k (k = 0..5). -/
def run_speed_test (cfg : Config) (cancelAt : ℕ → Bool) (out : ProviderOutcome) :
    SpeedTestResult :=
  if cancelAt 0 then cancelledResult else
  match stageErr out 0 with
  | some m => mkFail m
  | none =>
  if cancelAt 1 then cancelledResult else
  match stageErr out 1 with
  | some m => mkFail m
  | none =>
  if cancelAt 2 then cancelledResult else
  match stageErr out 2 with
  | some m => mkFail m
  | none =>
  if cancelAt 3 then cancelledResult else
  match stageErr out 3 with
  | some m => mkFail m
  | none =>
  if cancelAt 4 then cancelledResult else
  match stageErr out 4 with
  | some m => mkFail m
  | none =>
  if cancelAt 5 then cancelledResult else
  match out with
  | .errAt _ m => mkFail m
  | .ok server download upload ping =>
      let vr := validate_results cfg download upload ping
      { download_mbps := download / cfg.bits_to_mbps
        upload_mbps := upload / cfg.bits_to_mbps
        ping_ms := ping
        server_info := server
        is_valid := vr.1
        warnings := vr.2
        is_cancelled := false }

/-! ### Retry controller (SpeedTestEngine.run_speed_test_with_retry) -/

/-- Lower-casing of a string, character by character (Python str.lower; the
messages involved are ASCII, where the two agree). -/
def pyLower (s : String) : String := ⟨s.data.map Char.toLower⟩

/-- Whether the first list is a prefix of the second (Boolean). -/
def startsWithL : List Char → List Char → Bool
  | [], _ => true
  | _ :: _, [] => false
  | a :: as, b :: bs => a == b && startsWithL as bs

/-- Whether the needle occurs as a contiguous sublist of the haystack. -/
def containsSubL (needle : List Char) : List Char → Bool
  | [] => needle.isEmpty
  | c :: rest => startsWithL needle (c :: rest) || containsSubL needle rest

/-- Python substring membership: needle in hay. -/
def pyContains (hay needle : String) : Bool := containsSubL needle.data hay.data

/-- The fixed keyword list of run_speed_test_with_retry. -/
def retryable_errors : List String :=
  ["unable to retrieve", "no speedtest servers", "connection", "timeout", "network"]

/-- Retryability classification: any keyword occurs in the lower-cased first
warning. -/
def is_retryable (w : String) : Bool :=
  retryable_errors.any (fun e => pyContains (pyLower w) e)

/-- The result built after the for loop exhausts without an early return. -/
def allFailedResult : SpeedTestResult := { warnings := ["All retry attempts failed"] }

/-- One pass of the for loop of run_speed_test_with_retry, by recursion on
the remaining attempts.  i is the current attempt index, rem the number of
attempts still allowed (so rem = 0 after the loop, and rem = 1 on the last
iteration, where attempt == max_retries - 1 in the source).  cancelStart i
and cancelAfter i are the two cancellation-event reads of iteration i;
attempts i is the result of run_speed_test on attempt i.  The backoff sleep
is timing only and does not affect the returned value. -/
def retry_loop (attempts : ℕ → SpeedTestResult) (cancelStart cancelAfter : ℕ → Bool) :
    ℕ → ℕ → SpeedTestResult
  | _, 0 => allFailedResult
  | i, rem + 1 =>
    if cancelStart i then cancelledResult
    else
      let result := attempts i
      if result.is_valid || cancelAfter i then result
      else
        match result.warnings with
        | [] => retry_loop attempts cancelStart cancelAfter (i + 1) rem
        | w :: _ =>
          if !(is_retryable w) || rem == 0 then result
          else retry_loop attempts cancelStart cancelAfter (i + 1) rem

/-- SpeedTestEngine.run_speed_test_with_retry with max_retries attempts. -/
def run_speed_test_with_retry (max_retries : ℕ) (cancelStart cancelAfter : ℕ → Bool)
    (attempts : ℕ → SpeedTestResult) : SpeedTestResult :=
  retry_loop attempts cancelStart cancelAfter 0 max_retries

/-! ### Result store (test_results_storage.py, TestResultStorage)

The table of stored records is embedded as a list; the SQL queries become
filters and sorts over it. -/

/-- One row of the test_results table. -/
structure StoredRecord where
  timestamp : ℚ
  download_mbps : ℚ
  upload_mbps : ℚ
  ping_ms : ℚ
  server_info : String
  is_valid : Bool
  warnings : List String
  test_date : String
deriving DecidableEq, Repr

/-- Insertion into a list kept in descending timestamp order. -/
def insertDescByTime (r : StoredRecord) : List StoredRecord → List StoredRecord
  | [] => [r]
  | x :: xs =>
    if r.timestamp ≥ x.timestamp then r :: x :: xs else x :: insertDescByTime r xs

/-- Sort by timestamp, descending (ORDER BY timestamp DESC). -/
def sortDescByTime (l : List StoredRecord) : List StoredRecord :=
  l.foldr insertDescByTime []

/-- get_results_by_date_range: valid records whose timestamp lies in the
inclusive range, newest first (WHERE timestamp BETWEEN a AND b AND
is_valid = 1 ORDER BY timestamp DESC). -/
def get_results_by_date_range (store : List StoredRecord) (startT endT : ℚ) :
    List StoredRecord :=
  sortDescByTime (store.filter
    (fun r => (decide (startT ≤ r.timestamp) && decide (r.timestamp ≤ endT)) && r.is_valid))

/-- Ascending sort of rationals, used for the median. -/
def insertAscQ (q : ℚ) : List ℚ → List ℚ
  | [] => [q]
  | x :: xs => if q ≤ x then q :: x :: xs else x :: insertAscQ q xs

/-- Insertion sort of rationals. -/
def sortAscQ (l : List ℚ) : List ℚ := l.foldr insertAscQ []

/-- Python statistics.median: middle element of the sorted list for odd
length, average of the two middle elements for even length. -/
def medianQ (l : List ℚ) : ℚ :=
  let s := sortAscQ l
  let n := s.length
  if n % 2 = 1 then s.getD (n / 2) 0
  else (s.getD (n / 2 - 1) 0 + s.getD (n / 2) 0) / 2

/-- Minimum of a nonempty list given as head and tail. -/
def listMinQ (v : ℚ) (vs : List ℚ) : ℚ := vs.foldl min v

/-- Maximum of a nonempty list given as head and tail. -/
def listMaxQ (v : ℚ) (vs : List ℚ) : ℚ := vs.foldl max v

/-- Per-metric statistics (the calc_stats helper of get_statistics). -/
structure MetricStats where
  min : ℚ
  max : ℚ
  mean : ℚ
  median : ℚ
  count : ℕ
deriving DecidableEq, Repr

/-- calc_stats over a nonempty value list given as head and tail. -/
def calc_stats (v : ℚ) (vs : List ℚ) : MetricStats :=
  { min := listMinQ v vs
    max := listMaxQ v vs
    mean := (v + vs.foldl (· + ·) 0) / (1 + vs.length)
    median := medianQ (v :: vs)
    count := 1 + vs.length }

/-- The dictionary returned by get_statistics.  In the no-data shape the
per-metric entries are empty dictionaries and the first/last test dates are
absent; these are modelled as none. -/
structure Statistics where
  count : ℕ
  period_days : ℚ
  first_test : Option String
  last_test : Option String
  download : Option MetricStats
  upload : Option MetricStats
  ping : Option MetricStats
deriving DecidableEq, Repr

/-- get_statistics(days): statistics over the valid records of the last
days days before now (a monotonic embedding of datetime.now() minus
timedelta(days=days), in seconds). -/
def get_statistics (store : List StoredRecord) (now days : ℚ) : Statistics :=
  let results := get_results_by_date_range store (now - days * 86400) now
  match results with
  | [] =>
    { count := 0
      period_days := days
      first_test := none
      last_test := none
      download := none
      upload := none
      ping := none }
  | r :: rs =>
    { count := (r :: rs).length
      period_days := days
      first_test := some ((r :: rs).getLast (by simp)).test_date
      last_test := some r.test_date
      download := some (calc_stats r.download_mbps (rs.map (·.download_mbps)))
      upload := some (calc_stats r.upload_mbps (rs.map (·.upload_mbps)))
      ping := some (calc_stats r.ping_ms (rs.map (·.ping_ms))) }

/-! ### Scheduler (scheduled_testing.py, _scheduler_loop)

One iteration of the loop: the monotonic clock is read once, at the top of
the iteration (current_monotonic).  If it has reached the next-fire deadline,
_run_scheduled_test executes (consuming test_duration seconds of real time),
and the next deadline is then recomputed from the SAME current_monotonic
reading taken before the test - the clock is not re-read after the test.
test_duration therefore never enters the computation; it is a parameter here
only so that the claimed relation to the post-test clock value
(current_monotonic + test_duration) can be stated. -/

/-- Next-fire deadline after one iteration of _scheduler_loop. -/
def scheduler_iteration (interval_minutes next_test_monotonic current_monotonic
    test_duration : ℚ) : ℚ :=
  if current_monotonic ≥ next_test_monotonic then
    current_monotonic + interval_minutes * 60
  else next_test_monotonic

/-- The monotonic clock value at the moment the deadline is recomputed, i.e.
after _run_scheduled_test has finished. -/
def clockAtRecompute (current_monotonic test_duration : ℚ) : ℚ :=
  current_monotonic + test_duration

/-! ## Theorems -/

/-- C1: validate_results implements the three-tier policy: a negative value
gives an invalid result with the single measurement-failed warning and no
further checks; otherwise a speed above the reasonable ceiling (Gbps
converted to bps) or a ping above the reasonable ping ceiling gives an
invalid result with a single extremely-high warning; otherwise the result is
valid, with soft warnings collected exactly when a speed exceeds the typical
ceiling, when the ping exceeds the typical ping ceiling, and when both speeds
are below 1000000 bits per second. -/
theorem validate_results_three_tier (cfg : Config) (d u p : ℚ) :
    (d < 0 ∨ u < 0 ∨ p < 0 →
      validate_results cfg d u p =
        (false, ["Invalid negative values detected - measurement failed"])) ∧
    (¬(d < 0 ∨ u < 0 ∨ p < 0) →
      (d > cfg.max_reasonable_speed_gbps * 1000000000 ∨
        u > cfg.max_reasonable_speed_gbps * 1000000000 ∨
        p > cfg.max_reasonable_ping_ms) →
      validate_results cfg d u p =
          (false, ["Extremely high speeds detected - likely measurement error"]) ∨
        validate_results cfg d u p =
          (false, ["Extremely high ping detected - likely measurement error"])) ∧
    (¬(d < 0 ∨ u < 0 ∨ p < 0) →
      ¬(d > cfg.max_reasonable_speed_gbps * 1000000000 ∨
        u > cfg.max_reasonable_speed_gbps * 1000000000 ∨
        p > cfg.max_reasonable_ping_ms) →
      validate_results cfg d u p =
        (true,
          (if d > cfg.max_typical_speed_gbps * 1000000000 ∨
              u > cfg.max_typical_speed_gbps * 1000000000 then
            [unusualSpeedMsg (max d u / 1000000000)]
          else []) ++
          (if p > cfg.max_typical_ping_ms then [highLatencyMsg p] else []) ++
          (if d < 1000000 ∧ u < 1000000 then
            ["Very low speeds detected - check network connection"]
          else []))) := by
  refine ⟨fun hneg => ?_, fun hneg hext => ?_, fun hneg hext => ?_⟩
  · simp only [validate_results, if_pos hneg]
  · by_cases hs : d > cfg.max_reasonable_speed_gbps * 1000000000 ∨
        u > cfg.max_reasonable_speed_gbps * 1000000000
    · left
      simp only [validate_results, if_neg hneg, if_pos hs]
    · right
      have hp : p > cfg.max_reasonable_ping_ms := by
        rcases hext with h | h | h
        · exact absurd (Or.inl h) hs
        · exact absurd (Or.inr h) hs
        · exact h
      simp only [validate_results, if_neg hneg, if_neg hs, if_pos hp]
  · have hs : ¬(d > cfg.max_reasonable_speed_gbps * 1000000000 ∨
        u > cfg.max_reasonable_speed_gbps * 1000000000) := by
      intro h
      exact hext (h.elim Or.inl (fun h2 => Or.inr (Or.inl h2)))
    have hp : ¬ p > cfg.max_reasonable_ping_ms := fun h => hext (Or.inr (Or.inr h))
    simp only [validate_results, if_neg hneg, if_neg hs, if_neg hp]

/-- Witness for C1: the negative tier at a concrete input. -/
theorem validate_results_three_tier_witness :
    validate_results DEFAULT_CONFIG (-1) 0 0 =
      (false, ["Invalid negative values detected - measurement failed"]) :=
  (validate_results_three_tier DEFAULT_CONFIG (-1) 0 0).1 (by norm_num)

/-- C7: on a raw provider result of download 500000000 bps, upload 100000000
bps, ping 20 ms, with the default configuration (typical 1 Gbps / 1000 ms,
reasonable 10 Gbps / 10000 ms, bits_to_mbps 1000000) and no cancellation, the
engine yields a valid result with no warnings, shown as 500 and 100 Mbps. -/
theorem run_speed_test_scenario_A (s : String) :
    run_speed_test DEFAULT_CONFIG (fun _ => false) (.ok s 500000000 100000000 20) =
      { download_mbps := 500
        upload_mbps := 100
        ping_ms := 20
        server_info := s
        is_valid := true
        warnings := []
        is_cancelled := false } := by
  simp only [run_speed_test, stageErr, validate_results, DEFAULT_CONFIG]
  norm_num

/-- Counterexample for C9: with interval 1 minute, deadline 0 and a clock
reading of 0 at the top of the iteration, a test that takes 100 seconds
yields a recomputed deadline of 60, not the claimed post-test clock value
plus the interval (160): the loop does not re-read the clock after the
test. -/
theorem scheduler_deadline_cex :
    scheduler_iteration 1 0 0 100 = 60 ∧
    scheduler_iteration 1 0 0 100 ≠ clockAtRecompute 0 100 + 1 * 60 := by
  constructor
  · norm_num [scheduler_iteration]
  · norm_num [scheduler_iteration, clockAtRecompute]

/-- C9 amended: when the iteration fires, the recomputed next-fire deadline
equals the monotonic clock value observed at the START of the iteration,
before the test executes, plus the configured interval in seconds. -/
theorem scheduler_deadline_from_pretest_clock
    (interval_minutes next_test_monotonic current_monotonic test_duration : ℚ)
    (h : current_monotonic ≥ next_test_monotonic) :
    scheduler_iteration interval_minutes next_test_monotonic current_monotonic
        test_duration =
      current_monotonic + interval_minutes * 60 := by
  simp [scheduler_iteration, h]

/-- Witness for the amended C9 at a concrete firing iteration. -/
theorem scheduler_deadline_from_pretest_clock_witness :
    scheduler_iteration 1 0 5 100 = 5 + 1 * 60 :=
  scheduler_deadline_from_pretest_clock 1 0 5 100 (by norm_num)

/-- Counterexample for C2: with max_retries = 3 and every attempt an invalid,
non-cancelled result whose first warning contains the retryable keyword
timeout, the controller returns the third attempt's own result, so the
warnings are that attempt's message rather than the sentinel list: on the
last iteration the source returns the failed result directly. -/
theorem retry_exhaustion_cex :
    run_speed_test_with_retry 3 (fun _ => false) (fun _ => false)
        (fun _ => { is_valid := false, warnings := ["Connection timeout"],
                    is_cancelled := false }) =
      { is_valid := false, warnings := ["Connection timeout"],
        is_cancelled := false } ∧
    (run_speed_test_with_retry 3 (fun _ => false) (fun _ => false)
        (fun _ => { is_valid := false, warnings := ["Connection timeout"],
                    is_cancelled := false })).warnings ≠
      ["All retry attempts failed"] := by
  exact ⟨rfl, by decide⟩

/-- C2 amended: with max_retries = 3, no cancellation, and three consecutive
invalid attempts whose first warnings are retryable, the controller returns
the THIRD attempt's own result, warnings included; the sentinel result with
warnings ["All retry attempts failed"] arises only when the loop runs out of
attempts without an early return, as happens when the failed attempts carry
no warnings at all. -/
theorem retry_exhaustion_returns_last (cs ca : ℕ → Bool)
    (attempts : ℕ → SpeedTestResult) :
    ((∀ i, i < 3 → cs i = false) → (∀ i, i < 3 → ca i = false) →
      (∀ i, i < 3 → (attempts i).is_valid = false) →
      (∀ i, i < 3 → ∃ w ws, (attempts i).warnings = w :: ws ∧ is_retryable w = true) →
      run_speed_test_with_retry 3 cs ca attempts = attempts 2) ∧
    ((∀ i, i < 3 → cs i = false) → (∀ i, i < 3 → ca i = false) →
      (∀ i, i < 3 → (attempts i).is_valid = false) →
      (∀ i, i < 3 → (attempts i).warnings = []) →
      run_speed_test_with_retry 3 cs ca attempts = allFailedResult) := by
  constructor
  · intro hcs hca hv hw
    obtain ⟨w0, ws0, hw0, hr0⟩ := hw 0 (by norm_num)
    obtain ⟨w1, ws1, hw1, hr1⟩ := hw 1 (by norm_num)
    obtain ⟨w2, ws2, hw2, hr2⟩ := hw 2 (by norm_num)
    simp [run_speed_test_with_retry, retry_loop,
      hcs 0 (by norm_num), hcs 1 (by norm_num), hcs 2 (by norm_num),
      hca 0 (by norm_num), hca 1 (by norm_num), hca 2 (by norm_num),
      hv 0 (by norm_num), hv 1 (by norm_num), hv 2 (by norm_num),
      hw0, hw1, hw2, hr0, hr1, hr2]
  · intro hcs hca hv hw
    simp [run_speed_test_with_retry, retry_loop,
      hcs 0 (by norm_num), hcs 1 (by norm_num), hcs 2 (by norm_num),
      hca 0 (by norm_num), hca 1 (by norm_num), hca 2 (by norm_num),
      hv 0 (by norm_num), hv 1 (by norm_num), hv 2 (by norm_num),
      hw 0 (by norm_num), hw 1 (by norm_num), hw 2 (by norm_num)]

/-- Witness for the amended C2: three concrete retryable failures return the
third attempt's result. -/
theorem retry_exhaustion_returns_last_witness :
    run_speed_test_with_retry 3 (fun _ => false) (fun _ => false)
        (fun _ => { is_valid := false, warnings := ["Network unreachable"],
                    is_cancelled := false }) =
      { is_valid := false, warnings := ["Network unreachable"],
        is_cancelled := false } :=
  (retry_exhaustion_returns_last (fun _ => false) (fun _ => false)
      (fun _ => { is_valid := false, warnings := ["Network unreachable"],
                  is_cancelled := false })).1
    (fun _ _ => rfl) (fun _ _ => rfl) (fun _ _ => rfl)
    (fun _ _ => ⟨"Network unreachable", [], rfl, by decide⟩)

/-- Counterexample for C6: the claimed keyword "no servers" is not in the
code's keyword list (which has "no speedtest servers" instead): a first
warning that contains "no servers" case-insensitively is classified
non-retryable. -/
theorem retry_classification_cex :
    pyContains (pyLower "No servers found") "no servers" = true ∧
    is_retryable "No servers found" = false := by
  decide

/-- C6 amended: an invalid, non-cancelled attempt is classified retryable iff
its lower-cased first warning contains one of the keywords "unable to
retrieve", "no speedtest servers", "connection", "timeout", "network"; a
non-retryable failure is returned after exactly one attempt, whatever
max_retries (at least 1) allows. -/
theorem retry_classification :
    (∀ w, is_retryable w = true ↔
      ∃ e ∈ retryable_errors, pyContains (pyLower w) e = true) ∧
    (∀ (max_retries : ℕ) (cs ca : ℕ → Bool) (attempts : ℕ → SpeedTestResult)
        (w : String) (ws : List String),
      1 ≤ max_retries → cs 0 = false → ca 0 = false →
      (attempts 0).is_valid = false → (attempts 0).warnings = w :: ws →
      is_retryable w = false →
      run_speed_test_with_retry max_retries cs ca attempts = attempts 0) := by
  constructor
  · intro w
    simp [is_retryable, List.any_eq_true]
  · intro max_retries cs ca attempts w ws hmax hcs hca hv hw hnr
    obtain ⟨n, rfl⟩ : ∃ n, max_retries = n + 1 := ⟨max_retries - 1, by omega⟩
    simp [run_speed_test_with_retry, retry_loop, hcs, hca, hv, hw, hnr]

/-- Witness for the amended C6: a failure mentioning invalid input returns
after one attempt. -/
theorem retry_classification_witness :
    run_speed_test_with_retry 3 (fun _ => false) (fun _ => false)
        (fun _ => { is_valid := false, warnings := ["Invalid input data"],
                    is_cancelled := false }) =
      { is_valid := false, warnings := ["Invalid input data"],
        is_cancelled := false } :=
  retry_classification.2 3 (fun _ => false) (fun _ => false)
    (fun _ => { is_valid := false, warnings := ["Invalid input data"],
                is_cancelled := false })
    "Invalid input data" [] (by norm_num) rfl rfl rfl rfl (by decide)

/-- Every run_speed_test result that is cancelled is the canonical cancelled
result. -/
theorem run_speed_test_cases (cfg : Config) (cancelAt : ℕ → Bool)
    (out : ProviderOutcome) :
    run_speed_test cfg cancelAt out = cancelledResult ∨
    (run_speed_test cfg cancelAt out).is_cancelled = false := by
  unfold run_speed_test
  repeat' split
  all_goals simp [cancelledResult, mkFail]

/-- Helper: a cancelled run_speed_test result equals cancelledResult. -/
theorem run_speed_test_cancelled_eq (cfg : Config) (cancelAt : ℕ → Bool)
    (out : ProviderOutcome)
    (h : (run_speed_test cfg cancelAt out).is_cancelled = true) :
    run_speed_test cfg cancelAt out = cancelledResult := by
  rcases run_speed_test_cases cfg cancelAt out with he | he
  · exact he
  · rw [he] at h
    cases h

/-- Helper: a cancelled retry-loop result equals cancelledResult, provided
each attempt that is cancelled is itself canonical. -/
theorem retry_loop_cancelled_eq (attempts : ℕ → SpeedTestResult)
    (cs ca : ℕ → Bool)
    (hatt : ∀ j, (attempts j).is_cancelled = true → attempts j = cancelledResult) :
    ∀ rem i, (retry_loop attempts cs ca i rem).is_cancelled = true →
      retry_loop attempts cs ca i rem = cancelledResult := by
  intro rem
  induction rem with
  | zero =>
    intro i h
    simp [retry_loop, allFailedResult] at h
  | succ n ih =>
    intro i h
    by_cases h1 : cs i = true
    · simp [retry_loop, h1]
    · by_cases h2 : ((attempts i).is_valid || ca i) = true
      · have he : retry_loop attempts cs ca i (n + 1) = attempts i := by
          simp [retry_loop, h1, h2]
        rw [he] at h ⊢
        exact hatt i h
      · rcases hw : (attempts i).warnings with _ | ⟨w, ws⟩
        · have he : retry_loop attempts cs ca i (n + 1) =
              retry_loop attempts cs ca (i + 1) n := by
            simp [retry_loop, h1, h2, hw]
          rw [he] at h ⊢
          exact ih (i + 1) h
        · by_cases h3 : (!(is_retryable w) || n == 0) = true
          · have he : retry_loop attempts cs ca i (n + 1) = attempts i := by
              simp [retry_loop, h1, h2, hw, h3]
            rw [he] at h ⊢
            exact hatt i h
          · have he : retry_loop attempts cs ca i (n + 1) =
                retry_loop attempts cs ca (i + 1) n := by
              simp [retry_loop, h1, h2, hw, h3]
            rw [he] at h ⊢
            exact ih (i + 1) h

/-- C10: every result of run_speed_test or run_speed_test_with_retry that is
cancelled is the canonical cancelled result, which is invalid, carries zero
measurements, an empty server string and exactly the warnings list
["Test cancelled by user"]; a result is never simultaneously cancelled and
valid.  For the retry controller the attempts are results of run_speed_test,
as in the source. -/
theorem cancelled_result_canonical :
    (∀ (cfg : Config) (cancelAt : ℕ → Bool) (out : ProviderOutcome),
      (run_speed_test cfg cancelAt out).is_cancelled = true →
      run_speed_test cfg cancelAt out = cancelledResult) ∧
    (∀ (max_retries : ℕ) (cs ca : ℕ → Bool) (attempts : ℕ → SpeedTestResult),
      (∀ j, ∃ cfg cancelAt out, attempts j = run_speed_test cfg cancelAt out) →
      (run_speed_test_with_retry max_retries cs ca attempts).is_cancelled = true →
      run_speed_test_with_retry max_retries cs ca attempts = cancelledResult) ∧
    cancelledResult.is_valid = false ∧
    cancelledResult.download_mbps = 0 ∧
    cancelledResult.upload_mbps = 0 ∧
    cancelledResult.ping_ms = 0 ∧
    cancelledResult.server_info = "" ∧
    cancelledResult.warnings = ["Test cancelled by user"] := by
  refine ⟨run_speed_test_cancelled_eq, ?_, rfl, rfl, rfl, rfl, rfl, rfl⟩
  intro max_retries cs ca attempts hsrc h
  refine retry_loop_cancelled_eq attempts cs ca (fun j hj => ?_) max_retries 0 h
  obtain ⟨cfg, cancelAt, out, he⟩ := hsrc j
  rw [he] at hj ⊢
  exact run_speed_test_cancelled_eq cfg cancelAt out hj

/-- Witness for C10: a run cancelled at the first checkpoint of the retry
loop yields exactly the canonical cancelled result. -/
theorem cancelled_result_canonical_witness :
    run_speed_test_with_retry 3 (fun _ => true) (fun _ => false)
        (fun _ => run_speed_test DEFAULT_CONFIG (fun _ => false) (.ok "" 0 0 0)) =
      cancelledResult :=
  cancelled_result_canonical.2.1 3 (fun _ => true) (fun _ => false)
    (fun _ => run_speed_test DEFAULT_CONFIG (fun _ => false) (.ok "" 0 0 0))
    (fun _ => ⟨DEFAULT_CONFIG, fun _ => false, .ok "" 0 0 0, rfl⟩)
    (by rfl)

/-- C8: when no valid record of the store falls in the queried window, the
statistics come back in the no-data shape: zero count, the period echoed,
and empty per-metric structures, with no error. -/
theorem get_statistics_no_data (store : List StoredRecord) (now days : ℚ)
    (h : ∀ r ∈ store, r.is_valid = true →
      ¬(now - days * 86400 ≤ r.timestamp ∧ r.timestamp ≤ now)) :
    get_statistics store now days =
      { count := 0
        period_days := days
        first_test := none
        last_test := none
        download := none
        upload := none
        ping := none } := by
  have hf : store.filter
      (fun r => (decide (now - days * 86400 ≤ r.timestamp) &&
        decide (r.timestamp ≤ now)) && r.is_valid) = [] := by
    rw [List.filter_eq_nil_iff]
    intro r hr hcon
    simp only [Bool.and_eq_true, decide_eq_true_eq] at hcon
    exact h r hr hcon.2 ⟨hcon.1.1, hcon.1.2⟩
  simp only [get_statistics, get_results_by_date_range]
  rw [hf]
  rfl

/-- Witness for C8: the empty store over a seven-day window. -/
theorem get_statistics_no_data_witness :
    get_statistics [] 0 7 =
      { count := 0
        period_days := 7
        first_test := none
        last_test := none
        download := none
        upload := none
        ping := none } :=
  get_statistics_no_data [] 0 7 (by simp)

/-- Bounds extracted from a successful numeric validation. -/
theorem validateNum_bounds {lo hi : ℚ} {v : JValue} {q : ℚ}
    (h : validateNum lo hi v = some q) : lo ≤ q ∧ q ≤ hi := by
  unfold validateNum at h
  rcases hv : pyNumVal v with _ | x
  · rw [hv] at h
    have h2 : (none : Option ℚ) = some q := h
    cases h2
  · rw [hv] at h
    have h2 : (if lo ≤ x ∧ x ≤ hi then some x else none) = some q := h
    by_cases hc : lo ≤ x ∧ x ≤ hi
    · rw [if_pos hc] at h2
      obtain rfl := Option.some.inj h2
      exact hc
    · rw [if_neg hc] at h2
      cases h2

/-- Computation of the two loaded speed ceilings when the file supplies both
as in-range numbers. -/
theorem load_config_speed_pair (f : FileConfig) {t r : ℚ}
    (hts : f.max_typical_speed_gbps = some (.num t))
    (hrs : f.max_reasonable_speed_gbps = some (.num r))
    (ht1 : 1/10 ≤ t) (ht2 : t ≤ 100) (hr1 : 1 ≤ r) (hr2 : r ≤ 1000) :
    (load_config f).max_typical_speed_gbps = (if t ≥ r then 1 else t) ∧
    (load_config f).max_reasonable_speed_gbps = r := by
  have ht1i : (10 : ℚ)⁻¹ ≤ t := by
    rw [← one_div]
    exact ht1
  have vt : (validateFields f).max_typical_speed_gbps = some t := by
    simp [validateFields, fieldNum, hts, numRange, VALIDATION_RULES, validateNum,
      pyNumVal, ht1, ht1i, ht2]
  have vr : (validateFields f).max_reasonable_speed_gbps = some r := by
    simp [validateFields, fieldNum, hrs, numRange, VALIDATION_RULES, validateNum,
      pyNumVal, hr1, hr2]
  have pt : (posAdjust (validateFields f)).max_typical_speed_gbps = some t := by
    have h0 : ¬ t ≤ 0 := by linarith
    simp [posAdjust, vt, h0]
  have pr : (posAdjust (validateFields f)).max_reasonable_speed_gbps = some r := by
    have h0 : ¬ r ≤ 0 := by linarith
    simp [posAdjust, vr, h0]
  constructor
  · have e1 : (load_config f).max_typical_speed_gbps =
        ((validate_and_update_config f).max_typical_speed_gbps).getD 1 := rfl
    rw [e1]
    simp only [validate_and_update_config, applyConsistency, pt, pr]
    split_ifs with hge
    · rfl
    · rfl
  · have e1 : (load_config f).max_reasonable_speed_gbps =
        ((validate_and_update_config f).max_reasonable_speed_gbps).getD 10 := rfl
    rw [e1]
    simp only [validate_and_update_config, applyConsistency, pr]
    rfl

/-- Computation of the two loaded ping ceilings when the file supplies both
as in-range numbers. -/
theorem load_config_ping_pair (f : FileConfig) {tp rp : ℚ}
    (htp : f.max_typical_ping_ms = some (.num tp))
    (hrp : f.max_reasonable_ping_ms = some (.num rp))
    (hp1 : 50 ≤ tp) (hp2 : tp ≤ 5000) (hq1 : 100 ≤ rp) (hq2 : rp ≤ 30000) :
    (load_config f).max_typical_ping_ms = (if tp ≥ rp then 1000 else tp) ∧
    (load_config f).max_reasonable_ping_ms = rp := by
  have vt : (validateFields f).max_typical_ping_ms = some tp := by
    simp [validateFields, fieldNum, htp, numRange, VALIDATION_RULES, validateNum,
      pyNumVal, hp1, hp2]
  have vr : (validateFields f).max_reasonable_ping_ms = some rp := by
    simp [validateFields, fieldNum, hrp, numRange, VALIDATION_RULES, validateNum,
      pyNumVal, hq1, hq2]
  have pt : (posAdjust (validateFields f)).max_typical_ping_ms = some tp := by
    have h0 : ¬ tp ≤ 0 := by linarith
    simp [posAdjust, vt, h0]
  have pr : (posAdjust (validateFields f)).max_reasonable_ping_ms = some rp := by
    have h0 : ¬ rp ≤ 0 := by linarith
    simp [posAdjust, vr, h0]
  constructor
  · have e1 : (load_config f).max_typical_ping_ms =
        ((validate_and_update_config f).max_typical_ping_ms).getD 1000 := rfl
    rw [e1]
    simp only [validate_and_update_config, applyConsistency, pt, pr]
    split_ifs with hge
    · rfl
    · rfl
  · have e1 : (load_config f).max_reasonable_ping_ms =
        ((validate_and_update_config f).max_reasonable_ping_ms).getD 10000 := rfl
    rw [e1]
    simp only [validate_and_update_config, applyConsistency, pr]
    rfl

/-- Counterexample for C3: a file that supplies only the typical speed
ceiling, with the in-range value 50, loads to typical 50 over the default
reasonable 10, violating the claimed invariant: the consistency check is
skipped when only one ceiling of the pair is present. -/
theorem config_ceiling_invariant_cex :
    (load_config { max_typical_speed_gbps := some (.num 50) }).max_typical_speed_gbps
      = 50 ∧
    (load_config
        { max_typical_speed_gbps := some (.num 50) }).max_reasonable_speed_gbps
      = 10 ∧
    ¬((load_config { max_typical_speed_gbps := some (.num 50) }).max_typical_speed_gbps <
      (load_config
        { max_typical_speed_gbps := some (.num 50) }).max_reasonable_speed_gbps) := by
  refine ⟨?_, ?_, ?_⟩ <;>
    norm_num [load_config, validate_and_update_config, applyConsistency, posAdjust,
      validateFields, fieldNum, validateNum, pyNumVal, numRange, VALIDATION_RULES,
      DEFAULT_CONFIG]

/-- C3 amended: the ceiling invariants hold in the loaded configuration when
the file supplies BOTH ceilings of each pair, each individually within its
range, and each reasonable ceiling exceeds the corresponding typical default
(1 Gbps, 1000 ms); when only one ceiling of a pair is supplied the
consistency check is skipped entirely and the mix of file value and default
can violate the invariant. -/
theorem config_ceiling_invariant_when_pairs_supplied (f : FileConfig)
    {t r tp rp : ℚ}
    (hts : f.max_typical_speed_gbps = some (.num t))
    (hrs : f.max_reasonable_speed_gbps = some (.num r))
    (htp : f.max_typical_ping_ms = some (.num tp))
    (hrp : f.max_reasonable_ping_ms = some (.num rp))
    (ht1 : 1/10 ≤ t) (ht2 : t ≤ 100) (hr1 : 1 ≤ r) (hr2 : r ≤ 1000) (hr3 : 1 < r)
    (hp1 : 50 ≤ tp) (hp2 : tp ≤ 5000) (hq1 : 100 ≤ rp) (hq2 : rp ≤ 30000)
    (hq3 : 1000 < rp) :
    (load_config f).max_typical_speed_gbps <
      (load_config f).max_reasonable_speed_gbps ∧
    (load_config f).max_typical_ping_ms <
      (load_config f).max_reasonable_ping_ms := by
  obtain ⟨et, er⟩ := load_config_speed_pair f hts hrs ht1 ht2 hr1 hr2
  obtain ⟨ep, eq⟩ := load_config_ping_pair f htp hrp hp1 hp2 hq1 hq2
  constructor
  · rw [et, er]
    split_ifs with hge
    · exact hr3
    · push_neg at hge
      exact hge
  · rw [ep, eq]
    split_ifs with hge
    · exact hq3
    · push_neg at hge
      exact hge

/-- Witness for the amended C3 on a concrete file supplying all four
ceilings. -/
theorem config_ceiling_invariant_when_pairs_supplied_witness :
    (load_config
        { max_typical_speed_gbps := some (.num 50)
          max_reasonable_speed_gbps := some (.num 60)
          max_typical_ping_ms := some (.num 2000)
          max_reasonable_ping_ms := some (.num 3000) }).max_typical_speed_gbps <
      (load_config
        { max_typical_speed_gbps := some (.num 50)
          max_reasonable_speed_gbps := some (.num 60)
          max_typical_ping_ms := some (.num 2000)
          max_reasonable_ping_ms := some (.num 3000) }).max_reasonable_speed_gbps ∧
    (load_config
        { max_typical_speed_gbps := some (.num 50)
          max_reasonable_speed_gbps := some (.num 60)
          max_typical_ping_ms := some (.num 2000)
          max_reasonable_ping_ms := some (.num 3000) }).max_typical_ping_ms <
      (load_config
        { max_typical_speed_gbps := some (.num 50)
          max_reasonable_speed_gbps := some (.num 60)
          max_typical_ping_ms := some (.num 2000)
          max_reasonable_ping_ms := some (.num 3000) }).max_reasonable_ping_ms :=
  config_ceiling_invariant_when_pairs_supplied _ rfl rfl rfl rfl
    (by norm_num) (by norm_num) (by norm_num) (by norm_num) (by norm_num)
    (by norm_num) (by norm_num) (by norm_num) (by norm_num) (by norm_num)

/-- C5: when the file supplies both ceilings of a pair, each individually in
range, with the typical value at or above the reasonable one, the typical
value reverts to its default while the reasonable value is kept exactly as
given (asymmetric repair); likewise for the ping pair. -/
theorem asymmetric_repair (f : FileConfig) :
    (∀ t r : ℚ, f.max_typical_speed_gbps = some (.num t) →
      f.max_reasonable_speed_gbps = some (.num r) →
      1/10 ≤ t → t ≤ 100 → 1 ≤ r → r ≤ 1000 → t ≥ r →
      (load_config f).max_typical_speed_gbps = 1 ∧
      (load_config f).max_reasonable_speed_gbps = r) ∧
    (∀ tp rp : ℚ, f.max_typical_ping_ms = some (.num tp) →
      f.max_reasonable_ping_ms = some (.num rp) →
      50 ≤ tp → tp ≤ 5000 → 100 ≤ rp → rp ≤ 30000 → tp ≥ rp →
      (load_config f).max_typical_ping_ms = 1000 ∧
      (load_config f).max_reasonable_ping_ms = rp) := by
  constructor
  · intro t r hts hrs ht1 ht2 hr1 hr2 hge
    obtain ⟨et, er⟩ := load_config_speed_pair f hts hrs ht1 ht2 hr1 hr2
    rw [et, er]
    rw [if_pos hge]
    exact ⟨rfl, rfl⟩
  · intro tp rp htp hrp hp1 hp2 hq1 hq2 hge
    obtain ⟨ep, eq⟩ := load_config_ping_pair f htp hrp hp1 hp2 hq1 hq2
    rw [ep, eq]
    rw [if_pos hge]
    exact ⟨rfl, rfl⟩

/-- Witness for C5 on the inconsistent file of the repository's own test
suite: typical 10 over reasonable 5 and typical ping 2000 over reasonable
ping 1000 load as typical 1, reasonable 5, typical ping 1000, reasonable
ping 1000. -/
theorem asymmetric_repair_witness :
    (load_config
        { max_typical_speed_gbps := some (.num 10)
          max_reasonable_speed_gbps := some (.num 5)
          max_typical_ping_ms := some (.num 2000)
          max_reasonable_ping_ms := some (.num 1000) }).max_typical_speed_gbps = 1 ∧
    (load_config
        { max_typical_speed_gbps := some (.num 10)
          max_reasonable_speed_gbps := some (.num 5)
          max_typical_ping_ms := some (.num 2000)
          max_reasonable_ping_ms := some (.num 1000) }).max_reasonable_speed_gbps = 5 ∧
    (load_config
        { max_typical_speed_gbps := some (.num 10)
          max_reasonable_speed_gbps := some (.num 5)
          max_typical_ping_ms := some (.num 2000)
          max_reasonable_ping_ms := some (.num 1000) }).max_typical_ping_ms = 1000 ∧
    (load_config
        { max_typical_speed_gbps := some (.num 10)
          max_reasonable_speed_gbps := some (.num 5)
          max_typical_ping_ms := some (.num 2000)
          max_reasonable_ping_ms := some (.num 1000) }).max_reasonable_ping_ms = 1000 := by
  obtain ⟨h1, h2⟩ :=
    (asymmetric_repair
      { max_typical_speed_gbps := some (.num 10)
        max_reasonable_speed_gbps := some (.num 5)
        max_typical_ping_ms := some (.num 2000)
        max_reasonable_ping_ms := some (.num 1000) }).1 10 5 rfl rfl
      (by norm_num) (by norm_num) (by norm_num) (by norm_num) (by norm_num)
  obtain ⟨h3, h4⟩ :=
    (asymmetric_repair
      { max_typical_speed_gbps := some (.num 10)
        max_reasonable_speed_gbps := some (.num 5)
        max_typical_ping_ms := some (.num 2000)
        max_reasonable_ping_ms := some (.num 1000) }).2 2000 1000 rfl rfl
      (by norm_num) (by norm_num) (by norm_num) (by norm_num) (by norm_num)
  exact ⟨h1, h2, h3, h4⟩

/-- Counterexample for C4: a file with exactly one invalid field (reasonable
speed ceiling 2000, above its range) and one valid field (typical speed
ceiling 50, within its range) loads the VALID field to its default 1 rather
than to the file value: the reverted reasonable ceiling (default 10) makes
the consistency check fire against the still-valid typical value. -/
theorem per_field_repair_cex :
    validateKey .max_typical_speed_gbps (.num 50) = some (.num 50) ∧
    validateKey .max_reasonable_speed_gbps (.num 2000) = none ∧
    (load_config
        { max_typical_speed_gbps := some (.num 50)
          max_reasonable_speed_gbps := some (.num 2000) }).max_typical_speed_gbps
      = 1 ∧
    (1 : ℚ) ≠ 50 := by
  refine ⟨?_, ?_, ?_, by norm_num⟩ <;>
    norm_num [validateKey, load_config, validate_and_update_config, applyConsistency,
      posAdjust, validateFields, fieldNum, validateNum, pyNumVal, numRange,
      VALIDATION_RULES, DEFAULT_CONFIG]

set_option maxHeartbeats 1000000 in
/-- C4 amended: per-field repair.  A key absent from the file loads to its
default; a key present with an invalid value (out of range or of the wrong
type) loads to its default; a key present with a valid value loads to
exactly the file value, UNLESS it is a typical ceiling whose consistency
check fires (both ceilings of the pair present and, after individual
validation, typical at or above reasonable) - in that case the individually
valid typical value also reverts to its default. -/
theorem per_field_repair (f : FileConfig) (k : CKey) :
    (f.getKey k = none → (load_config f).getKey k = DEFAULT_CONFIG.getKey k) ∧
    (∀ v, f.getKey k = some v → validateKey k v = none →
      (load_config f).getKey k = DEFAULT_CONFIG.getKey k) ∧
    (∀ v w, f.getKey k = some v → validateKey k v = some w →
      (k = CKey.max_typical_speed_gbps → speedCascade f = false) →
      (k = CKey.max_typical_ping_ms → pingCascade f = false) →
      (load_config f).getKey k = w) := by
  cases k
  case bits_to_mbps =>
    refine ⟨fun h => ?_, fun v hv hval => ?_, fun v w hv hval hcs hcp => ?_⟩
    · show JValue.num (load_config f).bits_to_mbps = JValue.num 1000000
      have h2 : f.bits_to_mbps = none := h
      have e1 : (load_config f).bits_to_mbps = (fieldNum .bits_to_mbps 1000000 f.bits_to_mbps).getD 1000000 := rfl
      rw [e1, h2]
      rfl
    · show JValue.num (load_config f).bits_to_mbps = JValue.num 1000000
      have hv2 : f.bits_to_mbps = some v := hv
      have hval2 : (validateNum (numRange .bits_to_mbps).1 (numRange .bits_to_mbps).2 v).map
          JValue.num = none := hval
      rw [Option.map_eq_none'] at hval2
      have e1 : (load_config f).bits_to_mbps = (fieldNum .bits_to_mbps 1000000 f.bits_to_mbps).getD 1000000 := rfl
      rw [e1, hv2]
      simp [fieldNum, hval2]
    · show JValue.num (load_config f).bits_to_mbps = w
      have hv2 : f.bits_to_mbps = some v := hv
      have hval2 : (validateNum (numRange .bits_to_mbps).1 (numRange .bits_to_mbps).2 v).map
          JValue.num = some w := hval
      rw [Option.map_eq_some'] at hval2
      obtain ⟨q, hq, rfl⟩ := hval2
      have e1 : (load_config f).bits_to_mbps = (fieldNum .bits_to_mbps 1000000 f.bits_to_mbps).getD 1000000 := rfl
      rw [e1, hv2]
      simp [fieldNum, hq]
  case connectivity_check_timeout =>
    refine ⟨fun h => ?_, fun v hv hval => ?_, fun v w hv hval hcs hcp => ?_⟩
    · show JValue.num (load_config f).connectivity_check_timeout = JValue.num 10
      have h2 : f.connectivity_check_timeout = none := h
      have e1 : (load_config f).connectivity_check_timeout = (fieldNum .connectivity_check_timeout 10 f.connectivity_check_timeout).getD 10 := rfl
      rw [e1, h2]
      rfl
    · show JValue.num (load_config f).connectivity_check_timeout = JValue.num 10
      have hv2 : f.connectivity_check_timeout = some v := hv
      have hval2 : (validateNum (numRange .connectivity_check_timeout).1 (numRange .connectivity_check_timeout).2 v).map
          JValue.num = none := hval
      rw [Option.map_eq_none'] at hval2
      have e1 : (load_config f).connectivity_check_timeout = (fieldNum .connectivity_check_timeout 10 f.connectivity_check_timeout).getD 10 := rfl
      rw [e1, hv2]
      simp [fieldNum, hval2]
    · show JValue.num (load_config f).connectivity_check_timeout = w
      have hv2 : f.connectivity_check_timeout = some v := hv
      have hval2 : (validateNum (numRange .connectivity_check_timeout).1 (numRange .connectivity_check_timeout).2 v).map
          JValue.num = some w := hval
      rw [Option.map_eq_some'] at hval2
      obtain ⟨q, hq, rfl⟩ := hval2
      have e1 : (load_config f).connectivity_check_timeout = (fieldNum .connectivity_check_timeout 10 f.connectivity_check_timeout).getD 10 := rfl
      rw [e1, hv2]
      simp [fieldNum, hq]
  case speedtest_timeout =>
    refine ⟨fun h => ?_, fun v hv hval => ?_, fun v w hv hval hcs hcp => ?_⟩
    · show JValue.num (load_config f).speedtest_timeout = JValue.num 60
      have h2 : f.speedtest_timeout = none := h
      have e1 : (load_config f).speedtest_timeout = (fieldNum .speedtest_timeout 60 f.speedtest_timeout).getD 60 := rfl
      rw [e1, h2]
      rfl
    · show JValue.num (load_config f).speedtest_timeout = JValue.num 60
      have hv2 : f.speedtest_timeout = some v := hv
      have hval2 : (validateNum (numRange .speedtest_timeout).1 (numRange .speedtest_timeout).2 v).map
          JValue.num = none := hval
      rw [Option.map_eq_none'] at hval2
      have e1 : (load_config f).speedtest_timeout = (fieldNum .speedtest_timeout 60 f.speedtest_timeout).getD 60 := rfl
      rw [e1, hv2]
      simp [fieldNum, hval2]
    · show JValue.num (load_config f).speedtest_timeout = w
      have hv2 : f.speedtest_timeout = some v := hv
      have hval2 : (validateNum (numRange .speedtest_timeout).1 (numRange .speedtest_timeout).2 v).map
          JValue.num = some w := hval
      rw [Option.map_eq_some'] at hval2
      obtain ⟨q, hq, rfl⟩ := hval2
      have e1 : (load_config f).speedtest_timeout = (fieldNum .speedtest_timeout 60 f.speedtest_timeout).getD 60 := rfl
      rw [e1, hv2]
      simp [fieldNum, hq]
  case max_retries =>
    refine ⟨fun h => ?_, fun v hv hval => ?_, fun v w hv hval hcs hcp => ?_⟩
    · show JValue.num (load_config f).max_retries = JValue.num 3
      have h2 : f.max_retries = none := h
      have e1 : (load_config f).max_retries = (fieldNum .max_retries 3 f.max_retries).getD 3 := rfl
      rw [e1, h2]
      rfl
    · show JValue.num (load_config f).max_retries = JValue.num 3
      have hv2 : f.max_retries = some v := hv
      have hval2 : (validateNum (numRange .max_retries).1 (numRange .max_retries).2 v).map
          JValue.num = none := hval
      rw [Option.map_eq_none'] at hval2
      have e1 : (load_config f).max_retries = (fieldNum .max_retries 3 f.max_retries).getD 3 := rfl
      rw [e1, hv2]
      simp [fieldNum, hval2]
    · show JValue.num (load_config f).max_retries = w
      have hv2 : f.max_retries = some v := hv
      have hval2 : (validateNum (numRange .max_retries).1 (numRange .max_retries).2 v).map
          JValue.num = some w := hval
      rw [Option.map_eq_some'] at hval2
      obtain ⟨q, hq, rfl⟩ := hval2
      have e1 : (load_config f).max_retries = (fieldNum .max_retries 3 f.max_retries).getD 3 := rfl
      rw [e1, hv2]
      simp [fieldNum, hq]
  case retry_delay =>
    refine ⟨fun h => ?_, fun v hv hval => ?_, fun v w hv hval hcs hcp => ?_⟩
    · show JValue.num (load_config f).retry_delay = JValue.num 2
      have h2 : f.retry_delay = none := h
      have e1 : (load_config f).retry_delay = (fieldNum .retry_delay 2 f.retry_delay).getD 2 := rfl
      rw [e1, h2]
      rfl
    · show JValue.num (load_config f).retry_delay = JValue.num 2
      have hv2 : f.retry_delay = some v := hv
      have hval2 : (validateNum (numRange .retry_delay).1 (numRange .retry_delay).2 v).map
          JValue.num = none := hval
      rw [Option.map_eq_none'] at hval2
      have e1 : (load_config f).retry_delay = (fieldNum .retry_delay 2 f.retry_delay).getD 2 := rfl
      rw [e1, hv2]
      simp [fieldNum, hval2]
    · show JValue.num (load_config f).retry_delay = w
      have hv2 : f.retry_delay = some v := hv
      have hval2 : (validateNum (numRange .retry_delay).1 (numRange .retry_delay).2 v).map
          JValue.num = some w := hval
      rw [Option.map_eq_some'] at hval2
      obtain ⟨q, hq, rfl⟩ := hval2
      have e1 : (load_config f).retry_delay = (fieldNum .retry_delay 2 f.retry_delay).getD 2 := rfl
      rw [e1, hv2]
      simp [fieldNum, hq]
  case max_typical_speed_gbps =>
    have e0 : (posAdjust (validateFields f)).max_typical_speed_gbps =
        (fieldNum .max_typical_speed_gbps 1 f.max_typical_speed_gbps).map
          (fun q => if q ≤ 0 then 1 else q) := rfl
    have e1 : (load_config f).max_typical_speed_gbps =
        ((applyConsistency (posAdjust (validateFields f))).max_typical_speed_gbps).getD 1 := rfl
    refine ⟨fun h => ?_, fun v hv hval => ?_, fun v w hv hval hcs hcp => ?_⟩
    · show JValue.num (load_config f).max_typical_speed_gbps = JValue.num 1
      have h2 : f.max_typical_speed_gbps = none := h
      have e2 : (posAdjust (validateFields f)).max_typical_speed_gbps = none := by
        rw [e0, h2]
        rfl
      refine congrArg JValue.num ?_
      rw [e1]
      simp only [applyConsistency]
      rw [e2]
      rcases hr : (posAdjust (validateFields f)).max_reasonable_speed_gbps with _ | r <;> rfl
    · show JValue.num (load_config f).max_typical_speed_gbps = JValue.num 1
      have hv2 : f.max_typical_speed_gbps = some v := hv
      have hval2 : (validateNum (numRange .max_typical_speed_gbps).1 (numRange .max_typical_speed_gbps).2 v).map
          JValue.num = none := hval
      rw [Option.map_eq_none'] at hval2
      have e2 : (posAdjust (validateFields f)).max_typical_speed_gbps = some 1 := by
        rw [e0, hv2]
        norm_num [fieldNum, hval2]
      refine congrArg JValue.num ?_
      rw [e1]
      simp only [applyConsistency]
      rw [e2]
      rcases hr : (posAdjust (validateFields f)).max_reasonable_speed_gbps with _ | r
      · rfl
      · simp only []
        split_ifs <;> rfl
    · show JValue.num (load_config f).max_typical_speed_gbps = w
      have hv2 : f.max_typical_speed_gbps = some v := hv
      have hval2 : (validateNum (numRange .max_typical_speed_gbps).1 (numRange .max_typical_speed_gbps).2 v).map
          JValue.num = some w := hval
      rw [Option.map_eq_some'] at hval2
      obtain ⟨q, hq, rfl⟩ := hval2
      have h0 : ¬ q ≤ 0 := by
        have h1 := (validateNum_bounds hq).1
        simp [numRange, VALIDATION_RULES] at h1
        intro hq0
        linarith
      have e2 : (posAdjust (validateFields f)).max_typical_speed_gbps = some q := by
        rw [e0, hv2]
        simp [fieldNum, hq, h0]
      refine congrArg JValue.num ?_
      rw [e1]
      simp only [applyConsistency]
      rw [e2]
      rcases hr : (posAdjust (validateFields f)).max_reasonable_speed_gbps with _ | r
      · rfl
      · have hlt : ¬ q ≥ r := by
          have hc2 := hcs rfl
          unfold speedCascade at hc2
          rw [e2, hr] at hc2
          simpa using hc2
        simp only []
        rw [if_neg hlt]
        rfl
  case max_reasonable_speed_gbps =>
    refine ⟨fun h => ?_, fun v hv hval => ?_, fun v w hv hval hcs hcp => ?_⟩
    · show JValue.num (load_config f).max_reasonable_speed_gbps = JValue.num 10
      have h2 : f.max_reasonable_speed_gbps = none := h
      have e1 : (load_config f).max_reasonable_speed_gbps =
          ((fieldNum .max_reasonable_speed_gbps 10 f.max_reasonable_speed_gbps).map
            (fun q => if q ≤ 0 then 10 else q)).getD 10 := rfl
      rw [e1, h2]
      rfl
    · show JValue.num (load_config f).max_reasonable_speed_gbps = JValue.num 10
      have hv2 : f.max_reasonable_speed_gbps = some v := hv
      have hval2 : (validateNum (numRange .max_reasonable_speed_gbps).1 (numRange .max_reasonable_speed_gbps).2 v).map
          JValue.num = none := hval
      rw [Option.map_eq_none'] at hval2
      have e1 : (load_config f).max_reasonable_speed_gbps =
          ((fieldNum .max_reasonable_speed_gbps 10 f.max_reasonable_speed_gbps).map
            (fun q => if q ≤ 0 then 10 else q)).getD 10 := rfl
      rw [e1, hv2]
      norm_num [fieldNum, hval2]
    · show JValue.num (load_config f).max_reasonable_speed_gbps = w
      have hv2 : f.max_reasonable_speed_gbps = some v := hv
      have hval2 : (validateNum (numRange .max_reasonable_speed_gbps).1 (numRange .max_reasonable_speed_gbps).2 v).map
          JValue.num = some w := hval
      rw [Option.map_eq_some'] at hval2
      obtain ⟨q, hq, rfl⟩ := hval2
      have h0 : ¬ q ≤ 0 := by
        have h1 := (validateNum_bounds hq).1
        simp [numRange, VALIDATION_RULES] at h1
        intro hq0
        linarith
      have e1 : (load_config f).max_reasonable_speed_gbps =
          ((fieldNum .max_reasonable_speed_gbps 10 f.max_reasonable_speed_gbps).map
            (fun q => if q ≤ 0 then 10 else q)).getD 10 := rfl
      rw [e1, hv2]
      simp [fieldNum, hq, h0]
  case max_typical_ping_ms =>
    have e0 : (posAdjust (validateFields f)).max_typical_ping_ms =
        (fieldNum .max_typical_ping_ms 1000 f.max_typical_ping_ms).map
          (fun q => if q ≤ 0 then 1000 else q) := rfl
    have e1 : (load_config f).max_typical_ping_ms =
        ((applyConsistency (posAdjust (validateFields f))).max_typical_ping_ms).getD 1000 := rfl
    refine ⟨fun h => ?_, fun v hv hval => ?_, fun v w hv hval hcs hcp => ?_⟩
    · show JValue.num (load_config f).max_typical_ping_ms = JValue.num 1000
      have h2 : f.max_typical_ping_ms = none := h
      have e2 : (posAdjust (validateFields f)).max_typical_ping_ms = none := by
        rw [e0, h2]
        rfl
      refine congrArg JValue.num ?_
      rw [e1]
      simp only [applyConsistency]
      rw [e2]
      rcases hr : (posAdjust (validateFields f)).max_reasonable_ping_ms with _ | r <;> rfl
    · show JValue.num (load_config f).max_typical_ping_ms = JValue.num 1000
      have hv2 : f.max_typical_ping_ms = some v := hv
      have hval2 : (validateNum (numRange .max_typical_ping_ms).1 (numRange .max_typical_ping_ms).2 v).map
          JValue.num = none := hval
      rw [Option.map_eq_none'] at hval2
      have e2 : (posAdjust (validateFields f)).max_typical_ping_ms = some 1000 := by
        rw [e0, hv2]
        norm_num [fieldNum, hval2]
      refine congrArg JValue.num ?_
      rw [e1]
      simp only [applyConsistency]
      rw [e2]
      rcases hr : (posAdjust (validateFields f)).max_reasonable_ping_ms with _ | r
      · rfl
      · simp only []
        split_ifs <;> rfl
    · show JValue.num (load_config f).max_typical_ping_ms = w
      have hv2 : f.max_typical_ping_ms = some v := hv
      have hval2 : (validateNum (numRange .max_typical_ping_ms).1 (numRange .max_typical_ping_ms).2 v).map
          JValue.num = some w := hval
      rw [Option.map_eq_some'] at hval2
      obtain ⟨q, hq, rfl⟩ := hval2
      have h0 : ¬ q ≤ 0 := by
        have h1 := (validateNum_bounds hq).1
        simp [numRange, VALIDATION_RULES] at h1
        intro hq0
        linarith
      have e2 : (posAdjust (validateFields f)).max_typical_ping_ms = some q := by
        rw [e0, hv2]
        simp [fieldNum, hq, h0]
      refine congrArg JValue.num ?_
      rw [e1]
      simp only [applyConsistency]
      rw [e2]
      rcases hr : (posAdjust (validateFields f)).max_reasonable_ping_ms with _ | r
      · rfl
      · have hlt : ¬ q ≥ r := by
          have hc2 := hcp rfl
          unfold pingCascade at hc2
          rw [e2, hr] at hc2
          simpa using hc2
        simp only []
        rw [if_neg hlt]
        rfl
  case max_reasonable_ping_ms =>
    refine ⟨fun h => ?_, fun v hv hval => ?_, fun v w hv hval hcs hcp => ?_⟩
    · show JValue.num (load_config f).max_reasonable_ping_ms = JValue.num 10000
      have h2 : f.max_reasonable_ping_ms = none := h
      have e1 : (load_config f).max_reasonable_ping_ms =
          ((fieldNum .max_reasonable_ping_ms 10000 f.max_reasonable_ping_ms).map
            (fun q => if q ≤ 0 then 10000 else q)).getD 10000 := rfl
      rw [e1, h2]
      rfl
    · show JValue.num (load_config f).max_reasonable_ping_ms = JValue.num 10000
      have hv2 : f.max_reasonable_ping_ms = some v := hv
      have hval2 : (validateNum (numRange .max_reasonable_ping_ms).1 (numRange .max_reasonable_ping_ms).2 v).map
          JValue.num = none := hval
      rw [Option.map_eq_none'] at hval2
      have e1 : (load_config f).max_reasonable_ping_ms =
          ((fieldNum .max_reasonable_ping_ms 10000 f.max_reasonable_ping_ms).map
            (fun q => if q ≤ 0 then 10000 else q)).getD 10000 := rfl
      rw [e1, hv2]
      norm_num [fieldNum, hval2]
    · show JValue.num (load_config f).max_reasonable_ping_ms = w
      have hv2 : f.max_reasonable_ping_ms = some v := hv
      have hval2 : (validateNum (numRange .max_reasonable_ping_ms).1 (numRange .max_reasonable_ping_ms).2 v).map
          JValue.num = some w := hval
      rw [Option.map_eq_some'] at hval2
      obtain ⟨q, hq, rfl⟩ := hval2
      have h0 : ¬ q ≤ 0 := by
        have h1 := (validateNum_bounds hq).1
        simp [numRange, VALIDATION_RULES] at h1
        intro hq0
        linarith
      have e1 : (load_config f).max_reasonable_ping_ms =
          ((fieldNum .max_reasonable_ping_ms 10000 f.max_reasonable_ping_ms).map
            (fun q => if q ≤ 0 then 10000 else q)).getD 10000 := rfl
      rw [e1, hv2]
      simp [fieldNum, hq, h0]
  case show_detailed_progress =>
    refine ⟨fun h => ?_, fun v hv hval => ?_, fun v w hv hval hcs hcp => ?_⟩
    · show JValue.bool (load_config f).show_detailed_progress = JValue.bool true
      have h2 : f.show_detailed_progress = none := h
      have e1 : (load_config f).show_detailed_progress = (fieldBool true f.show_detailed_progress).getD true := rfl
      rw [e1, h2]
      rfl
    · show JValue.bool (load_config f).show_detailed_progress = JValue.bool true
      have hv2 : f.show_detailed_progress = some v := hv
      have hval2 : (validateBool v).map JValue.bool = none := hval
      rw [Option.map_eq_none'] at hval2
      have e1 : (load_config f).show_detailed_progress = (fieldBool true f.show_detailed_progress).getD true := rfl
      rw [e1, hv2]
      simp [fieldBool, hval2]
    · show JValue.bool (load_config f).show_detailed_progress = w
      have hv2 : f.show_detailed_progress = some v := hv
      have hval2 : (validateBool v).map JValue.bool = some w := hval
      rw [Option.map_eq_some'] at hval2
      obtain ⟨b, hb, rfl⟩ := hval2
      have e1 : (load_config f).show_detailed_progress = (fieldBool true f.show_detailed_progress).getD true := rfl
      rw [e1, hv2]
      simp [fieldBool, hb]
  case save_results_to_database =>
    refine ⟨fun h => ?_, fun v hv hval => ?_, fun v w hv hval hcs hcp => ?_⟩
    · show JValue.bool (load_config f).save_results_to_database = JValue.bool true
      have h2 : f.save_results_to_database = none := h
      have e1 : (load_config f).save_results_to_database = (fieldBool true f.save_results_to_database).getD true := rfl
      rw [e1, h2]
      rfl
    · show JValue.bool (load_config f).save_results_to_database = JValue.bool true
      have hv2 : f.save_results_to_database = some v := hv
      have hval2 : (validateBool v).map JValue.bool = none := hval
      rw [Option.map_eq_none'] at hval2
      have e1 : (load_config f).save_results_to_database = (fieldBool true f.save_results_to_database).getD true := rfl
      rw [e1, hv2]
      simp [fieldBool, hval2]
    · show JValue.bool (load_config f).save_results_to_database = w
      have hv2 : f.save_results_to_database = some v := hv
      have hval2 : (validateBool v).map JValue.bool = some w := hval
      rw [Option.map_eq_some'] at hval2
      obtain ⟨b, hb, rfl⟩ := hval2
      have e1 : (load_config f).save_results_to_database = (fieldBool true f.save_results_to_database).getD true := rfl
      rw [e1, hv2]
      simp [fieldBool, hb]

/-- Witness for the amended C4: a valid bits_to_mbps file value is kept. -/
theorem per_field_repair_witness :
    (load_config { bits_to_mbps := some (.num 500000) }).getKey .bits_to_mbps =
      JValue.num 500000 :=
  (per_field_repair { bits_to_mbps := some (.num 500000) } .bits_to_mbps).2.2
    (.num 500000) (.num 500000) rfl
    (by norm_num [validateKey, validateNum, pyNumVal, numRange, VALIDATION_RULES])
    (fun h => absurd h (by decide)) (fun h => absurd h (by decide))

end SpeedTest
